import Mathlib

/-!
Shallow embedding of the request-authorization and data-access layer of the
`recruitment-backend-track-typescript` service, and proofs of the behavioural
claims about it.

The embedding translates, function by function:
  * `src/utils/pagination.ts`        (`getPagination` and its constants)
  * `src/utils/validators.ts`        (`validateNumericId`)
  * `src/utils/responses.ts`         (`sendSuccess` / `sendError` body shapes)
  * `src/auth/auth.utils.ts`         (`verifyJwt` token extraction and gate)
  * `src/controllers/auth.controller.ts`       (`register`, `login`)
  * `src/controllers/user.controller.ts`       (`get`, `update`, `remove`, `list`)
  * `src/controllers/taxProfile.controller.ts` (`get`, `remove`, `list`, `cleanUndefined`)
  * `src/controllers/invoice.controller.ts`    (`get`, `remove`, `list`)
  * `src/services/user.service.ts`   (`listUsers`, `deleteUser`, `updateUser`)
plus the store model implied by the Prisma schema / SQL migration
(PostgreSQL tables `User`, `TaxProfile`, `Invoice`, unique index on
`User.email`, cascading foreign keys).

External collaborators are modelled at their documented semantics:
  * JavaScript `Number(string)` conversion is modelled on the decimal fragment
    of its grammar (optional sign, digits, optional fraction; whitespace-only
    is `0`); hexadecimal / exponent forms are out of scope of every claim.
  * Prisma `findMany { where, skip, take, orderBy }` is modelled as
    filter + stable descending sort + drop/take over an in-memory row list;
    `count { where }` as the length of the filtered list.  `skip` and `take`
    are only modelled for non-negative integral arguments, the only region
    any claim touches; other values make the store call fail.
  * Prisma string filter `contains` is case-sensitive on PostgreSQL unless
    `mode: 'insensitive'` is given (LIKE vs ILIKE).
  * bcrypt hashing/compare and JWT sign/verify are opaque functions, taken as
    parameters wherever they matter.
-/

namespace Backend

/-! ## JavaScript `Number()` on decimal strings -/

/-- Parse a non-empty all-digit character list as a natural number. -/
def parseDigits : List Char → Option ℕ
  | [] => none
  | cs => go cs 0
where
  go : List Char → ℕ → Option ℕ
    | [], acc => some acc
    | c :: cs, acc =>
        if c.isDigit then go cs (10 * acc + (c.toNat - 48)) else none

/-- Model of the JavaScript `Number(string)` conversion, restricted to the
decimal fragment of its grammar: surrounding whitespace is trimmed, the empty
(or all-whitespace) string converts to `0`, an optional sign is followed by
`digits`, `digits.digits`, `digits.` or `.digits`.  Anything else is `NaN`,
represented as `none`.  (Hexadecimal, exponent and `Infinity` forms are not
modelled; no claim involves them.) -/
def jsNumber (s : String) : Option ℚ :=
  let t := s.trim
  if t = "" then some 0 else
  let (sign, body) : ℚ × List Char :=
    match t.toList with
    | '-' :: rest => (-1, rest)
    | '+' :: rest => (1, rest)
    | l => (1, l)
  match (String.mk body).splitOn "." with
  | [intPart] => (parseDigits intPart.toList).map fun n => sign * (n : ℚ)
  | [intPart, fracPart] =>
      if intPart = "" && fracPart = "" then none
      else
        let i? : Option ℕ := if intPart = "" then some 0 else parseDigits intPart.toList
        let f? : Option ℕ := if fracPart = "" then some 0 else parseDigits fracPart.toList
        match i?, f? with
        | some i, some f =>
            some (sign * ((i : ℚ) + (f : ℚ) / ((10 : ℚ) ^ fracPart.length)))
        | _, _ => none
  | _ => none

/-- `Number()` applied to a possibly-absent value: `Number(undefined)` is
`NaN`. -/
def jsNumberOf : Option String → Option ℚ
  | none => none
  | some s => jsNumber s

/-- JavaScript `x || d` on a number `x` (`NaN` and `0` are falsy). -/
def jsOrNum (v : Option ℚ) (d : ℚ) : ℚ :=
  match v with
  | none => d
  | some q => if q = 0 then d else q

/-- JavaScript truthiness of a possibly-absent string value (as tested by
`if (req.query.x)`): present and non-empty. -/
def isTruthy : Option String → Bool
  | none => false
  | some s => s ≠ ""

/-! ## `src/utils/pagination.ts` -/

def DEFAULT_PAGE : ℚ := 1
def DEFAULT_LIMIT : ℚ := 10
def MAX_LIMIT : ℚ := 100

structure Pagination where
  page : ℚ
  limit : ℚ
deriving Repr, DecidableEq

/-- `getPagination(query)`: `page` and `limit` are the raw query values (absent
is `undefined`); `Number.isNaN(raw) || raw < 1 ? DEFAULT : raw`, with the limit
additionally `Math.min`-ed against `MAX_LIMIT`. -/
def getPagination (page limit : Option String) : Pagination :=
  let rawPage := jsNumberOf page
  let rawLimit := jsNumberOf limit
  { page :=
      match rawPage with
      | none => DEFAULT_PAGE
      | some q => if q < 1 then DEFAULT_PAGE else q
    limit :=
      match rawLimit with
      | none => DEFAULT_LIMIT
      | some q => if q < 1 then DEFAULT_LIMIT else min q MAX_LIMIT }

/-! ## Data model (Prisma schema / SQL migration)

`User (id SERIAL, email TEXT UNIQUE, password TEXT, name TEXT, createdAt)`,
`TaxProfile (id, userId FK→User ON DELETE CASCADE, name, tax_id_number,
address)`, `Invoice (id, taxProfileId FK→TaxProfile ON DELETE CASCADE,
amount DECIMAL(12,2), status TEXT, issuedAt)`.  Timestamps are modelled as
naturals (only their ordering is ever used); the decimal amount is modelled as
an exact rational, matching the spec's exact fixed-point requirement. -/

structure User where
  id : ℕ
  email : String
  password : String
  name : String
  createdAt : ℕ
deriving Repr, DecidableEq

structure TaxProfile where
  id : ℕ
  userId : ℕ
  name : String
  tax_id_number : String
  address : String
deriving Repr, DecidableEq

structure Invoice where
  id : ℕ
  taxProfileId : ℕ
  amount : ℚ
  status : String
  issuedAt : ℕ
deriving Repr, DecidableEq

/-- The relational store: one row list per table. -/
structure Db where
  users : List User
  taxProfiles : List TaxProfile
  invoices : List Invoice
deriving Repr, DecidableEq

def findUserById (db : Db) (id : ℤ) : Option User :=
  db.users.find? fun u => (u.id : ℤ) = id

def findUserByEmail (db : Db) (email : String) : Option User :=
  db.users.find? fun u => u.email = email

def findTaxProfileById (db : Db) (id : ℤ) : Option TaxProfile :=
  db.taxProfiles.find? fun t => (t.id : ℤ) = id

def findInvoiceById (db : Db) (id : ℤ) : Option Invoice :=
  db.invoices.find? fun i => (i.id : ℤ) = id

/-! ## Prisma query primitives -/

/-- Substring test on character lists. -/
def charsContain (needle : List Char) : List Char → Bool
  | [] => needle.isEmpty
  | c :: rest => needle.isPrefixOf (c :: rest) || charsContain needle rest

/-- `hay` contains `needle` as a contiguous substring. -/
def strContains (hay needle : String) : Bool :=
  charsContain needle.toList hay.toList

def lowerStr (s : String) : String :=
  String.mk (s.toList.map Char.toLower)

/-- Prisma `QueryMode` for string filters. -/
inductive QueryMode where
  | default
  | insensitive
deriving Repr, DecidableEq

/-- Prisma `{ contains: needle, mode }` on PostgreSQL: `LIKE '%needle%'`
(case-sensitive) in default mode, `ILIKE` (case-insensitive, modelled by
lower-casing both sides) in insensitive mode. -/
def prismaContains (mode : QueryMode) (field needle : String) : Bool :=
  match mode with
  | .default => strContains field needle
  | .insensitive => strContains (lowerStr field) (lowerStr needle)

/-- Insert into a list sorted by `key` in descending order (stable). -/
def insertDesc (key : α → ℕ) (x : α) : List α → List α
  | [] => [x]
  | y :: ys => if key y ≤ key x then x :: y :: ys else y :: insertDesc key x ys

/-- Stable descending sort by a natural-number key: the model of Prisma's
`orderBy: { field: 'desc' }`. -/
def sortDesc (key : α → ℕ) : List α → List α
  | [] => []
  | x :: xs => insertDesc key x (sortDesc key xs)

/-- `findMany { skip, take }` on an already filtered and ordered row list,
for non-negative integral `skip`/`take` (the only case the claims reach). -/
def listSlice (skip take : ℕ) (l : List α) : List α :=
  (l.drop skip).take take

/-- A Prisma `skip`/`take` argument is accepted by the model only when it is a
non-negative integer; the controllers pass raw `Number(...)` results through,
and anything else makes the store call fail (surfaced as a 500 by the
controller's catch). -/
def acceptedArg (q : ℚ) : Bool := q.den = 1 && 0 ≤ q.num

/-- Known Prisma error codes the store can raise here. -/
inductive PrismaErr where
  | P2025  -- record required but not found
  | P2002  -- unique constraint violation
  | P2003  -- foreign key constraint violation
deriving Repr, DecidableEq

/-- Opaque stand-in for the driver's human-readable message for an error code
(`err.message`); the claims depend only on which code it came from, never on
the exact text. -/
def prismaMessage : PrismaErr → String
  | .P2025 => "P2025: record not found"
  | .P2002 => "P2002: unique constraint failed"
  | .P2003 => "P2003: foreign key constraint failed"

/-! ## `src/utils/responses.ts` and raw response bodies -/

/-- JSON body of a response, by field presence.  `sendSuccess` / `sendError`
always include `success` and `timestamp`; the auth middleware's handwritten
`res.status(401).json({ error })` body includes neither.  (`requestId` merely
echoes a correlation id and is not modelled.) -/
structure Body (α : Type) where
  success : Option Bool
  data : Option α
  error : Option String
  timestamp : Bool
  errorId : Bool
deriving Repr, DecidableEq

/-- Body built by `sendSuccess(res, data, status, req)`. -/
def sendSuccessBody (d : α) : Body α :=
  { success := some true, data := some d, error := none,
    timestamp := true, errorId := false }

/-- Body built by `sendError(res, error, status, req, extra?)`; the only
`extra` the code ever passes is `{ errorId }` from the global error handler. -/
def sendErrorBody (e : String) (withErrorId : Bool := false) : Body α :=
  { success := some false, data := none, error := some e,
    timestamp := true, errorId := withErrorId }

/-- Body built by the auth gate's raw `res.status(401).json({ error })`. -/
def gateErrorBody (e : String) : Body α :=
  { success := none, data := none, error := some e,
    timestamp := false, errorId := false }

/-- An HTTP response: status plus body; `body = none` models a bodiless
`res.status(204).send()`. -/
structure HttpResponse (α : Type) where
  status : ℕ
  body : Option (Body α)
deriving Repr, DecidableEq

def respSuccess (status : ℕ) (d : α) : HttpResponse α :=
  ⟨status, some (sendSuccessBody d)⟩

def respError (status : ℕ) (e : String) : HttpResponse α :=
  ⟨status, some (sendErrorBody e)⟩

/-! ## `src/utils/validators.ts` -/

/-- `validateNumericId(id, fieldName)`: `Number(id)` must be a positive
integer, otherwise the boundary throws (caught by the controllers and turned
into a 400 with this message). -/
def validateNumericId (idRaw : String) (fieldName : String) : Except String ℤ :=
  match jsNumber idRaw with
  | none =>
      .error ("Invalid " ++ fieldName ++ " format. Must be a positive integer.")
  | some q =>
      if q.den = 1 && 0 < q.num then .ok q.num
      else .error ("Invalid " ++ fieldName ++ " format. Must be a positive integer.")

/-! ## `src/auth/auth.utils.ts`: the auth gate -/

/-- The parts of a request the auth middleware reads: the `Authorization`
header and the `access_token` cookie. -/
structure AuthReq where
  authorization : Option String
  accessTokenCookie : Option String
deriving Repr, DecidableEq

/-- `req.headers.authorization?.split(' ')[1] ?? req.cookies['access_token']`:
the second space-separated component of the header when it exists (it may be
the empty string), else the cookie. -/
def extractToken (req : AuthReq) : Option String :=
  match req.authorization with
  | some h =>
      match (h.splitOn " ")[1]? with
      | some t => some t
      | none => req.accessTokenCookie
  | none => req.accessTokenCookie

/-- Outcome of the `verifyJwt` middleware: short-circuit with a status and a
raw `{ error }` body, or call `next()` with the decoded payload attached. -/
inductive GateOutcome where
  | reject (status : ℕ) (error : String)
  | proceed (sub : ℕ)
deriving Repr, DecidableEq

/-- `verifyJwt`: extract the token, fail 401 "Missing token" when absent or
falsy, otherwise verify it (the `jwt.verify` call is the parameter `verify`,
`none` covering every throw: bad signature, malformed, expired) and either
fail 401 "Invalid token" or proceed with the decoded subject. -/
def verifyJwt (verify : String → Option ℕ) (req : AuthReq) : GateOutcome :=
  match extractToken req with
  | none => .reject 401 "Missing token"
  | some t =>
      if t = "" then .reject 401 "Missing token"
      else
        match verify t with
        | some sub => .proceed sub
        | none => .reject 401 "Invalid token"

/-- A protected endpoint as wired in the route files: `verifyJwt` runs first;
only on `proceed` does the resource handler (which may read the store) run. -/
def protectedRoute (verify : String → Option ℕ) (handler : ℕ → Db → HttpResponse α)
    (db : Db) (req : AuthReq) : HttpResponse α :=
  match verifyJwt verify req with
  | .reject status e => ⟨status, some (gateErrorBody e)⟩
  | .proceed sub => handler sub db

/-! ## `src/controllers/auth.controller.ts` -/

/-- The `{ token, user: { id, email, name } }` payload of register/login. -/
structure AuthData where
  token : String
  userId : ℕ
  userEmail : String
  userName : String
deriving Repr, DecidableEq

/-- `SERIAL` primary key: one more than the largest id in the table. -/
def nextUserId (db : Db) : ℕ :=
  (db.users.map User.id).foldr max 0 + 1

/-- `prisma.user.create`: the unique index on `User.email` makes the insert
fail with `P2002` when the email is already present. -/
def prismaCreateUser (db : Db) (email password name : String) (now : ℕ) :
    Except PrismaErr (User × Db) :=
  if db.users.any fun u => u.email = email then .error .P2002
  else
    let u : User := ⟨nextUserId db, email, password, name, now⟩
    .ok (u, { db with users := db.users ++ [u] })

/-- `register`: pre-check `findUnique({ where: { email } })`, then create with
the hashed password.  The pre-check and the insert are two separate store
calls, so they are given separate store snapshots (`checkDb`, `db`); the
`P2002` catch handles exactly an insert racing a concurrent registration.
(The catch also checks `err.meta.target.includes('email')`; `email` is the
only unique index, so every `P2002` from this table satisfies it.) -/
def register (hash : String → String) (sign : ℕ → String) (checkDb db : Db)
    (email password name : String) (now : ℕ) : HttpResponse AuthData × Db :=
  match findUserByEmail checkDb email with
  | some _ => (respError 409 "Email already used", db)
  | none =>
      match prismaCreateUser db email (hash password) name now with
      | .ok (u, db') => (respSuccess 201 ⟨sign u.id, u.id, email, name⟩, db')
      | .error .P2002 => (respError 409 "Email already used", db)
      | .error _ => (respError 500 "Registration failed", db)

/-- `login`: `findUnique({ where: { email } })`, then
`if (!user || !comparePassword(password, user.password))` → 401. -/
def login (cmp : String → String → Bool) (sign : ℕ → String) (db : Db)
    (email password : String) : HttpResponse AuthData :=
  match findUserByEmail db email with
  | none => respError 401 "Invalid credentials"
  | some u =>
      if cmp password u.password then
        respSuccess 200 ⟨sign u.id, u.id, u.email, u.name⟩
      else respError 401 "Invalid credentials"

/-! ## `src/controllers/user.controller.ts` (with `src/services/user.service.ts`) -/

/-- Parse result of `UserUpdateSchema` (partial: every field optional;
a missing field is `undefined`, later stripped by the controller's
`cleanUndefined`-style filter, which the `Option` encoding already captures). -/
structure UserPatch where
  email : Option String
  password : Option String
  name : Option String
deriving Repr, DecidableEq

/-- The fragment of `UserUpdateSchema` the claims rely on: a supplied password
has at least 12 characters (`Password = z.string().min(12)` in
user.schema.ts).  The email-format constraint is irrelevant to every claim and
not modelled. -/
def userPatchValid (p : UserPatch) : Bool :=
  match p.password with
  | some pw => 12 ≤ pw.length
  | none => true

/-- `if (cleaned.password) cleaned.password = hashPassword(cleaned.password)`:
hash the password exactly when it is present and truthy (non-empty). -/
def hashIfPresent (hash : String → String) (p : UserPatch) : UserPatch :=
  match p.password with
  | some pw => if pw ≠ "" then { p with password := some (hash pw) } else p
  | none => p

/-- Prisma `update` data semantics: fields present in the data object are
written, absent fields keep their stored values. -/
def applyUserPatch (u : User) (p : UserPatch) : User :=
  { u with
    email := p.email.getD u.email
    password := p.password.getD u.password
    name := p.name.getD u.name }

/-- `prisma.user.update({ where: { id }, data })`: `P2025` when no row has the
id, `P2002` when the data sets `email` to another row's email (unique index). -/
def prismaUpdateUser (db : Db) (id : ℤ) (p : UserPatch) :
    Except PrismaErr (User × Db) :=
  match findUserById db id with
  | none => .error .P2025
  | some u =>
      if p.email.any fun e => db.users.any fun v => v.email = e && (v.id : ℤ) ≠ id then
        .error .P2002
      else
        let u' := applyUserPatch u p
        .ok (u', { db with
                   users := db.users.map fun v => if (v.id : ℤ) = id then u' else v })

/-- `ON DELETE CASCADE` along `User ← TaxProfile ← Invoice`. -/
def cascadeDeleteUser (db : Db) (id : ℕ) : Db :=
  let removedProfileIds := (db.taxProfiles.filter fun t => t.userId = id).map TaxProfile.id
  { users := db.users.filter fun u => u.id ≠ id
    taxProfiles := db.taxProfiles.filter fun t => t.userId ≠ id
    invoices := db.invoices.filter fun i => !(removedProfileIds.contains i.taxProfileId) }

/-- `prisma.user.delete({ where: { id } })`: `P2025` when no row has the id,
otherwise remove the row and cascade. -/
def prismaDeleteUser (db : Db) (id : ℤ) : Except PrismaErr Db :=
  match findUserById db id with
  | none => .error .P2025
  | some u => .ok (cascadeDeleteUser db u.id)

/-- User controller `get`. -/
def userGet (db : Db) (idRaw : String) : HttpResponse User :=
  match validateNumericId idRaw "User ID" with
  | .error m => respError 400 m
  | .ok id =>
      match findUserById db id with
      | none => respError 404 "Not found"
      | some u => respSuccess 200 u

/-- User controller `update`: validate the id, parse the body (`body = none`
models a body rejected by `UserUpdateSchema.safeParse`), strip `undefined`
fields, hash a supplied truthy password, then `service.updateUser`.  Any error
thrown by the store is answered with `sendError(err.message, 400)`. -/
def userUpdate (hash : String → String) (db : Db) (idRaw : String)
    (body : Option UserPatch) : HttpResponse User × Db :=
  match validateNumericId idRaw "User ID" with
  | .error m => (respError 400 m, db)
  | .ok id =>
      match body with
      | none => (respError 400 "Validation failed", db)
      | some p =>
          let cleaned := hashIfPresent hash p
          match prismaUpdateUser db id cleaned with
          | .ok (u, db') => (respSuccess 200 u, db')
          | .error e => (respError 400 (prismaMessage e), db)

/-- User controller `remove`: validate the id, then `service.deleteUser`.
The catch block has no `P2025` branch: every store error, including
record-not-found, is answered with `sendError(err.message, 400)`. -/
def userRemove (db : Db) (idRaw : String) : HttpResponse Unit × Db :=
  match validateNumericId idRaw "User ID" with
  | .error m => (respError 400 m, db)
  | .ok id =>
      match prismaDeleteUser db id with
      | .ok db' => (⟨204, none⟩, db')
      | .error e => (respError 400 (prismaMessage e), db)

/-- Query parameters of the user `list` endpoint. -/
structure UserListQuery where
  page : Option String
  limit : Option String
  email : Option String
  name : Option String
deriving Repr, DecidableEq

/-- The user list filter: `{ contains: String(v) }` per truthy query value —
no `mode` is given, so Prisma's default (case-sensitive on PostgreSQL)
applies. -/
def userMatches (q : UserListQuery) (u : User) : Bool :=
  (!isTruthy q.email || prismaContains .default u.email (q.email.getD "")) &&
  (!isTruthy q.name || prismaContains .default u.name (q.name.getD ""))

/-- `service.listUsers(page, limit, filter)`: `skip = (page-1)*limit`,
`findMany({ where, skip, take: limit, orderBy: { createdAt: 'desc' } })`. -/
def listUsers (db : Db) (page limit : ℚ) (q : UserListQuery) :
    Except String (List User) :=
  let skip := (page - 1) * limit
  if acceptedArg skip && acceptedArg limit then
    .ok (listSlice skip.num.toNat limit.num.toNat
          (sortDesc User.createdAt (db.users.filter (userMatches q))))
  else .error "invalid skip or take argument"

/-- `{ page, limit, data }` payload of the user list. -/
structure UserListResult where
  page : ℚ
  limit : ℚ
  data : List User
deriving Repr, DecidableEq

/-- User controller `list`: `getPagination`, optional filters, store errors
answered with `sendError('List failed', 500)`. -/
def userList (db : Db) (q : UserListQuery) : HttpResponse UserListResult :=
  let pg := getPagination q.page q.limit
  match listUsers db pg.page pg.limit q with
  | .ok us => respSuccess 200 ⟨pg.page, pg.limit, us⟩
  | .error _ => respError 500 "List failed"

/-! ## `src/controllers/taxProfile.controller.ts` -/

/-- Response of the global error handler in `src/index.ts` for an exception
thrown outside a controller's try block: 500 with an `errorId` extra field. -/
def respInternal : HttpResponse α :=
  ⟨500, some (sendErrorBody "Internal server error" true)⟩

/-- Parse result of `TaxProfileUpdateSchema` (partial). -/
structure TaxProfilePatch where
  userId : Option ℕ
  name : Option String
  tax_id_number : Option String
  address : Option String
deriving Repr, DecidableEq

/-- Prisma `update` data semantics for a tax profile. -/
def applyTaxProfilePatch (t : TaxProfile) (p : TaxProfilePatch) : TaxProfile :=
  { t with
    userId := p.userId.getD t.userId
    name := p.name.getD t.name
    tax_id_number := p.tax_id_number.getD t.tax_id_number
    address := p.address.getD t.address }

/-- `prisma.taxProfile.update`: `P2025` when no row has the id, `P2003` when
the data sets `userId` to a value no user row carries (the
`TaxProfile.userId → User` foreign key of the migration); nothing is written
on either error. -/
def prismaUpdateTaxProfile (db : Db) (id : ℤ) (p : TaxProfilePatch) :
    Except PrismaErr (TaxProfile × Db) :=
  match findTaxProfileById db id with
  | none => .error .P2025
  | some t =>
      if p.userId.any fun v => !(db.users.any fun u => u.id = v) then
        .error .P2003
      else
        let t' := applyTaxProfilePatch t p
        .ok (t', { db with
                   taxProfiles :=
                     db.taxProfiles.map fun v => if (v.id : ℤ) = id then t' else v })

/-- `ON DELETE CASCADE` along `TaxProfile ← Invoice`. -/
def cascadeDeleteTaxProfile (db : Db) (id : ℕ) : Db :=
  { db with
    taxProfiles := db.taxProfiles.filter fun t => t.id ≠ id
    invoices := db.invoices.filter fun i => i.taxProfileId ≠ id }

/-- `prisma.taxProfile.delete`: `P2025` when no row has the id. -/
def prismaDeleteTaxProfile (db : Db) (id : ℤ) : Except PrismaErr Db :=
  match findTaxProfileById db id with
  | none => .error .P2025
  | some t => .ok (cascadeDeleteTaxProfile db t.id)

/-- Tax profile controller `get`. -/
def taxProfileGet (db : Db) (idRaw : String) : HttpResponse TaxProfile :=
  match validateNumericId idRaw "Tax Profile ID" with
  | .error m => respError 400 m
  | .ok id =>
      match findTaxProfileById db id with
      | none => respError 404 "Not found"
      | some t => respSuccess 200 t

/-- Tax profile controller `update`: validate the id, parse the body,
`cleanUndefined`, then `prisma.taxProfile.update`; store errors are answered
with `sendError(err.message, 400)`. -/
def taxProfileUpdate (db : Db) (idRaw : String) (body : Option TaxProfilePatch) :
    HttpResponse TaxProfile × Db :=
  match validateNumericId idRaw "Tax Profile ID" with
  | .error m => (respError 400 m, db)
  | .ok id =>
      match body with
      | none => (respError 400 "Validation failed", db)
      | some p =>
          match prismaUpdateTaxProfile db id p with
          | .ok (t, db') => (respSuccess 200 t, db')
          | .error e => (respError 400 (prismaMessage e), db)

/-- Tax profile controller `remove`: the catch block answers `P2025` with
404 "Not found" and any other error with `sendError(err.message, 400)`. -/
def taxProfileRemove (db : Db) (idRaw : String) : HttpResponse Unit × Db :=
  match validateNumericId idRaw "Tax Profile ID" with
  | .error m => (respError 400 m, db)
  | .ok id =>
      match prismaDeleteTaxProfile db id with
      | .ok db' => (⟨204, none⟩, db')
      | .error .P2025 => (respError 404 "Not found", db)
      | .error e => (respError 400 (prismaMessage e), db)

/-- Query parameters of the tax profile `list` endpoint. -/
structure TaxProfileListQuery where
  page : Option String
  limit : Option String
  name : Option String
  userId : Option String
  tax_id_number : Option String
deriving Repr, DecidableEq

/-- The `where` object built by the tax profile `list`. -/
structure TaxProfileFilter where
  name : Option String
  userId : Option ℤ
  tax_id_number : Option String
deriving Repr, DecidableEq

/-- The `userId` part of the tax profile filter:
`if (req.query.userId) filter.userId = validateNumericId(req.query.userId)` —
a malformed `userId` throws outside the try block (global error handler). -/
def userIdFilterOf (q : TaxProfileListQuery) : Except String (Option ℤ) :=
  if isTruthy q.userId then
    match validateNumericId (q.userId.getD "") "ID" with
    | .ok n => .ok (some n)
    | .error m => .error m
  else .ok none

/-- Building the tax profile filter (name substring, exact userId, tax id
substring). -/
def buildTaxProfileFilter (q : TaxProfileListQuery) :
    Except String TaxProfileFilter :=
  match userIdFilterOf q with
  | .error m => .error m
  | .ok uid =>
      .ok { name := if isTruthy q.name then some (q.name.getD "") else none
            userId := uid
            tax_id_number :=
              if isTruthy q.tax_id_number then some (q.tax_id_number.getD "") else none }

def taxProfileMatches (f : TaxProfileFilter) (t : TaxProfile) : Bool :=
  (match f.name with
   | some s => prismaContains .default t.name s
   | none => true) &&
  (match f.userId with
   | some n => (t.userId : ℤ) = n
   | none => true) &&
  (match f.tax_id_number with
   | some s => prismaContains .default t.tax_id_number s
   | none => true)

/-- `{ page, limit, total, data }` payload of the tax profile and invoice
lists. -/
structure PagedResult (α : Type) where
  page : ℚ
  limit : ℚ
  total : ℕ
  data : List α
deriving Repr, DecidableEq

/-- Tax profile controller `list`:
`page = Number(req.query.page) || 1`, `limit = Number(req.query.limit) || 10`
(no clamp), `skip = (page-1)*limit`; `count` and `findMany` share the same
`where`; `findMany` orders by `id` descending.  A store rejection of
`skip`/`take` is caught and answered `sendError('Internal server error', 500)`. -/
def taxProfileList (db : Db) (q : TaxProfileListQuery) :
    HttpResponse (PagedResult TaxProfile) :=
  let page := jsOrNum (jsNumberOf q.page) 1
  let limit := jsOrNum (jsNumberOf q.limit) 10
  let skip := (page - 1) * limit
  match buildTaxProfileFilter q with
  | .error _ => respInternal
  | .ok f =>
      let filtered := db.taxProfiles.filter (taxProfileMatches f)
      if acceptedArg skip && acceptedArg limit then
        respSuccess 200
          ⟨page, limit, filtered.length,
           listSlice skip.num.toNat limit.num.toNat (sortDesc TaxProfile.id filtered)⟩
      else respError 500 "Internal server error"

/-! ## `src/controllers/invoice.controller.ts` -/

/-- Query parameters of the invoice `list` endpoint. -/
structure InvoiceListQuery where
  page : Option String
  limit : Option String
  status : Option String
  email : Option String
  minAmount : Option String
  maxAmount : Option String
deriving Repr, DecidableEq

/-- The `where` object built by the invoice `list`: exact `status`, relational
case-insensitive email substring, and an `amount: { gte?, lte? }` range. -/
structure InvoiceFilter where
  status : Option String
  email : Option String
  amountGte : Option ℚ
  amountLte : Option ℚ
deriving Repr, DecidableEq

/-- `new Prisma.Decimal(String(v))` for a truthy query value: a malformed
decimal throws.  (The constructor's decimal grammar is modelled by the same
decimal-fragment parser as `Number()`; no claim involves the exotic forms on
which the two differ.) -/
def decimalOf (v : Option String) : Except String (Option ℚ) :=
  if isTruthy v then
    match jsNumber (v.getD "") with
    | some d => .ok (some d)
    | none => .error "[DecimalError] Invalid argument"
  else .ok none

/-- Building the invoice filter; the `Decimal` constructions (min first, then
max) happen before the try block, so a malformed bound aborts to the global
error handler. -/
def buildInvoiceFilter (q : InvoiceListQuery) : Except String InvoiceFilter :=
  match decimalOf q.minAmount with
  | .error m => .error m
  | .ok mn =>
      match decimalOf q.maxAmount with
      | .error m => .error m
      | .ok mx =>
          .ok { status := if isTruthy q.status then some (q.status.getD "") else none
                email := if isTruthy q.email then some (q.email.getD "") else none
                amountGte := mn
                amountLte := mx }

/-- `status` part of the invoice `where`: exact match when given, no
constraint otherwise. -/
def statusMatch (f : InvoiceFilter) (inv : Invoice) : Bool :=
  match f.status with
  | some s => inv.status = s
  | none => true

/-- Relational email part of the invoice `where`:
`taxProfile: { user: { email: { contains, mode: 'insensitive' } } }`, a
traversal of the owning chain; a dangling foreign key matches nothing. -/
def emailMatch (db : Db) (f : InvoiceFilter) (inv : Invoice) : Bool :=
  match f.email with
  | some e =>
      (match findTaxProfileById db (inv.taxProfileId : ℤ) with
       | some tp =>
           match findUserById db (tp.userId : ℤ) with
           | some u => prismaContains .insensitive u.email e
           | none => false
       | none => false)
  | none => true

/-- `amount: { gte }` part of the invoice `where` (inclusive lower bound). -/
def gteMatch (f : InvoiceFilter) (inv : Invoice) : Bool :=
  match f.amountGte with
  | some mn => decide (mn ≤ inv.amount)
  | none => true

/-- `amount: { lte }` part of the invoice `where` (inclusive upper bound). -/
def lteMatch (f : InvoiceFilter) (inv : Invoice) : Bool :=
  match f.amountLte with
  | some mx => decide (inv.amount ≤ mx)
  | none => true

/-- The filter predicate shared by `count` and `findMany`: all given parts
must hold (a Prisma `where` object composes its entries with AND). -/
def invoiceMatches (db : Db) (f : InvoiceFilter) (inv : Invoice) : Bool :=
  statusMatch f inv && emailMatch db f inv && gteMatch f inv && lteMatch f inv

/-- Invoice controller `get`. -/
def invoiceGet (db : Db) (idRaw : String) : HttpResponse Invoice :=
  match validateNumericId idRaw "Invoice ID" with
  | .error m => respError 400 m
  | .ok id =>
      match findInvoiceById db id with
      | none => respError 404 "Not found"
      | some inv => respSuccess 200 inv

/-- Parse result of `InvoiceUpdateSchema` (partial: every field optional).  A
supplied `amount` decimal string arrives as its exact rational value, a
supplied `issuedAt` ISO string as its parsed timestamp; an absent field stays
`undefined` (the outer zod `optional` short-circuits before any transform)
and is later stripped by `cleanUndefined`, which the `Option` encoding
captures. -/
structure InvoicePatch where
  taxProfileId : Option ℕ
  amount : Option ℚ
  status : Option String
  issuedAt : Option ℕ
deriving Repr, DecidableEq

/-- Prisma `update` data semantics for an invoice. -/
def applyInvoicePatch (inv : Invoice) (p : InvoicePatch) : Invoice :=
  { inv with
    taxProfileId := p.taxProfileId.getD inv.taxProfileId
    amount := p.amount.getD inv.amount
    status := p.status.getD inv.status
    issuedAt := p.issuedAt.getD inv.issuedAt }

/-- `prisma.invoice.update`: `P2025` when no row has the id, `P2003` when the
data sets `taxProfileId` to a value no tax profile row carries (the
`Invoice.taxProfileId → TaxProfile` foreign key of the migration); nothing is
written on either error. -/
def prismaUpdateInvoice (db : Db) (id : ℤ) (p : InvoicePatch) :
    Except PrismaErr (Invoice × Db) :=
  match findInvoiceById db id with
  | none => .error .P2025
  | some inv =>
      if p.taxProfileId.any fun v => !(db.taxProfiles.any fun t => t.id = v) then
        .error .P2003
      else
        let inv' := applyInvoicePatch inv p
        .ok (inv', { db with
                     invoices :=
                       db.invoices.map fun w => if (w.id : ℤ) = id then inv' else w })

/-- Invoice controller `update`: validate the id, parse the body,
`cleanUndefined`, then `prisma.invoice.update`; any store error is answered
with `sendError(err.message, 400)`. -/
def invoiceUpdate (db : Db) (idRaw : String) (body : Option InvoicePatch) :
    HttpResponse Invoice × Db :=
  match validateNumericId idRaw "Invoice ID" with
  | .error m => (respError 400 m, db)
  | .ok id =>
      match body with
      | none => (respError 400 "Validation failed", db)
      | some p =>
          match prismaUpdateInvoice db id p with
          | .ok (inv, db') => (respSuccess 200 inv, db')
          | .error e => (respError 400 (prismaMessage e), db)

/-- `prisma.invoice.delete`: `P2025` when no row has the id. -/
def prismaDeleteInvoice (db : Db) (id : ℤ) : Except PrismaErr Db :=
  match findInvoiceById db id with
  | none => .error .P2025
  | some inv =>
      .ok { db with invoices := db.invoices.filter fun i => i.id ≠ inv.id }

/-- Invoice controller `remove`: the catch block answers `P2025` with 404
"Not found" and any other error with `sendError(err.message, 400)`. -/
def invoiceRemove (db : Db) (idRaw : String) : HttpResponse Unit × Db :=
  match validateNumericId idRaw "Invoice ID" with
  | .error m => (respError 400 m, db)
  | .ok id =>
      match prismaDeleteInvoice db id with
      | .ok db' => (⟨204, none⟩, db')
      | .error .P2025 => (respError 404 "Not found", db)
      | .error e => (respError 400 (prismaMessage e), db)

/-- Invoice controller `list`:
`page = Number(req.query.page) || 1`, `limit = Number(req.query.limit) || 10`
(no clamp), `skip = (page-1)*limit`; `count` and `findMany` share the same
`where`; `findMany` orders by `issuedAt` descending.  A store rejection of
`skip`/`take` is caught and answered `sendError('Internal server error', 500)`. -/
def invoiceList (db : Db) (q : InvoiceListQuery) :
    HttpResponse (PagedResult Invoice) :=
  let page := jsOrNum (jsNumberOf q.page) 1
  let limit := jsOrNum (jsNumberOf q.limit) 10
  let skip := (page - 1) * limit
  match buildInvoiceFilter q with
  | .error _ => respInternal
  | .ok f =>
      let filtered := db.invoices.filter (invoiceMatches db f)
      if acceptedArg skip && acceptedArg limit then
        respSuccess 200
          ⟨page, limit, filtered.length,
           listSlice skip.num.toNat limit.num.toNat (sortDesc Invoice.issuedAt filtered)⟩
      else respError 500 "Internal server error"

/-! ## Helper lemmas -/

theorem mem_insertDesc {key : α → ℕ} {x a : α} {l : List α} :
    a ∈ insertDesc key x l ↔ a = x ∨ a ∈ l := by
  induction l with
  | nil => simp [insertDesc]
  | cons y ys ih =>
      by_cases h : key y ≤ key x
      · simp [insertDesc, h]
      · simp only [insertDesc, if_neg h, List.mem_cons, ih]
        tauto

theorem mem_sortDesc {key : α → ℕ} {a : α} {l : List α} :
    a ∈ sortDesc key l ↔ a ∈ l := by
  induction l with
  | nil => simp [sortDesc]
  | cons x xs ih => simp [sortDesc, mem_insertDesc, ih]

theorem length_insertDesc (key : α → ℕ) (x : α) (l : List α) :
    (insertDesc key x l).length = l.length + 1 := by
  induction l with
  | nil => simp [insertDesc]
  | cons y ys ih =>
      by_cases h : key y ≤ key x
      · simp [insertDesc, h]
      · simp [insertDesc, h, ih]

theorem length_sortDesc (key : α → ℕ) (l : List α) :
    (sortDesc key l).length = l.length := by
  induction l with
  | nil => rfl
  | cons x xs ih => simp [sortDesc, length_insertDesc, ih]

theorem length_listSlice_le (skip take : ℕ) (l : List α) :
    (listSlice skip take l).length ≤ take :=
  List.length_take_le take (l.drop skip)

theorem mem_listSlice {skip take : ℕ} {a : α} {l : List α} :
    a ∈ listSlice skip take l → a ∈ l := by
  intro h
  exact List.mem_of_mem_drop (List.mem_of_mem_take h)

/-! ## Claim theorems -/

/-- C2: on a protected endpoint, no bearer token and no `access_token` cookie
gives 401 "Missing token" without running the handler; a present token failing
verification gives 401 "Invalid token", and either rejection is independent of
the store and of the handler (so nothing about the underlying resource can
leak); a verified token attaches its decoded subject and runs the next
handler. -/
theorem C2_auth_gate (verify : String → Option ℕ) (req : AuthReq) :
    (extractToken req = none ∨ extractToken req = some "" →
      verifyJwt verify req = .reject 401 "Missing token")
  ∧ (∀ t, extractToken req = some t → t ≠ "" → verify t = none →
      verifyJwt verify req = .reject 401 "Invalid token")
  ∧ (∀ t sub, extractToken req = some t → t ≠ "" → verify t = some sub →
      verifyJwt verify req = .proceed sub)
  ∧ (∀ (α : Type) (st : ℕ) (e : String) (h1 h2 : ℕ → Db → HttpResponse α)
        (db1 db2 : Db),
      verifyJwt verify req = .reject st e →
      protectedRoute verify h1 db1 req = protectedRoute verify h2 db2 req)
  ∧ (∀ (α : Type) (h : ℕ → Db → HttpResponse α) (db : Db) (sub : ℕ),
      verifyJwt verify req = .proceed sub →
      protectedRoute verify h db req = h sub db) := by
  refine ⟨?_, ?_, ?_, ?_, ?_⟩
  · rintro (h | h) <;> simp [verifyJwt, h]
  · intro t ht hne hv
    simp [verifyJwt, ht, hne, hv]
  · intro t sub ht hne hv
    simp [verifyJwt, ht, hne, hv]
  · intro α st e h1 h2 db1 db2 hrej
    simp [protectedRoute, hrej]
  · intro α h db sub hp
    simp [protectedRoute, hp]

/-- Concrete verifier used by the C2 witness: accepts exactly the token
"ok" with subject 7. -/
def wVerify : String → Option ℕ :=
  fun t => if t = "ok" then some 7 else none

/-- Witness for C2 at concrete requests: no credentials, a bad bearer token,
and a good bearer token. -/
theorem C2_auth_gate_witness :
    verifyJwt wVerify ⟨none, none⟩ = .reject 401 "Missing token"
  ∧ verifyJwt wVerify ⟨some "Bearer bad", none⟩ = .reject 401 "Invalid token"
  ∧ verifyJwt wVerify ⟨some "Bearer ok", none⟩ = .proceed 7
  ∧ protectedRoute wVerify (fun sub _ => respSuccess 200 sub) ⟨[], [], []⟩
      ⟨some "Bearer ok", none⟩ = respSuccess 200 7 := by
  refine ⟨?_, ?_, ?_, ?_⟩
  · exact (C2_auth_gate wVerify ⟨none, none⟩).1 (Or.inl rfl)
  · exact (C2_auth_gate wVerify ⟨some "Bearer bad", none⟩).2.1 "bad"
      (by with_unfolding_all decide) (by decide) (by decide)
  · exact (C2_auth_gate wVerify ⟨some "Bearer ok", none⟩).2.2.1 "ok" 7
      (by with_unfolding_all decide) (by decide) (by decide)
  · exact (C2_auth_gate wVerify ⟨some "Bearer ok", none⟩).2.2.2.2
      ℕ (fun sub _ => respSuccess 200 sub) ⟨[], [], []⟩ 7
      ((C2_auth_gate wVerify ⟨some "Bearer ok", none⟩).2.2.1 "ok" 7
        (by with_unfolding_all decide) (by decide) (by decide))

/-- C3: the claim says every response, including the auth gate's 401s, carries
`success`, `timestamp` and one of `data`/`error`.  The helpers `sendSuccess` /
`sendError` do produce that envelope (and the `errorId` extra does not change
it), but the gate's own 401 bodies are a handwritten `{ error }` with no
`success` and no `timestamp` — evaluated here at the failing input (a
protected request with no token): the code contradicts the claim (and the
repository's own README, which documents the gate's 401s with the full
envelope). -/
theorem C3_envelope_gap :
    verifyJwt (fun _ => none) ⟨none, none⟩ = .reject 401 "Missing token"
  ∧ protectedRoute (fun _ => none) (fun _ _ => respSuccess 200 (0 : ℕ))
      ⟨[], [], []⟩ ⟨none, none⟩ = ⟨401, some (gateErrorBody "Missing token")⟩
  ∧ (gateErrorBody "Missing token" : Body ℕ).success = none
  ∧ (gateErrorBody "Missing token" : Body ℕ).timestamp = false
  ∧ (sendSuccessBody (0 : ℕ)).success = some true
  ∧ (sendSuccessBody (0 : ℕ)).timestamp = true
  ∧ (sendSuccessBody (0 : ℕ)).error = none
  ∧ (sendErrorBody "x" true : Body ℕ).success = some false
  ∧ (sendErrorBody "x" true : Body ℕ).timestamp = true
  ∧ (sendErrorBody "x" true : Body ℕ).data = none := by
  with_unfolding_all decide

/-- C5: the claim says deleting a nonexistent id returns 404 `NotFoundError`
for every entity.  The invoice and tax-profile controllers do translate the
store's `P2025` into 404 "Not found", but the user controller's catch block
has no `P2025` branch: deleting a nonexistent user id answers 400 with the
raw driver message — contradicting the claim (and the repository's own
OpenAPI document, which declares 404 for `DELETE /api/user/{id}`).  Evaluated
on an empty store at id 1; the store is unchanged, so every repeated call
behaves identically. -/
theorem C5_delete_nonexistent :
    (userRemove ⟨[], [], []⟩ "1").1 = respError 400 (prismaMessage .P2025)
  ∧ (userRemove ⟨[], [], []⟩ "1").1.status = 400
  ∧ (invoiceRemove ⟨[], [], []⟩ "1").1 = respError 404 "Not found"
  ∧ (taxProfileRemove ⟨[], [], []⟩ "1").1 = respError 404 "Not found"
  ∧ (userRemove ⟨[], [], []⟩ "1").2 = ⟨[], [], []⟩
  ∧ (invoiceRemove ⟨[], [], []⟩ "1").2 = ⟨[], [], []⟩ := by
  with_unfolding_all decide

/-- Row and store used by the C8 evaluation. -/
def aliceRow : User := ⟨1, "Alice@Example.com", "hash", "Alice", 0⟩

def aliceDb : Db := ⟨[aliceRow], [], []⟩

/-- C8: the claim says the user list's `email`/`name` filters match
case-insensitively.  The controller builds `{ contains: v }` with no
`mode: 'insensitive'`, so Prisma's PostgreSQL default — case-sensitive
`LIKE` — applies: the lower-cased query "alice" does not match the stored
name "Alice" (empty page), while the exact-case substring "Alic" does.  The
insensitive mode (which the invoice email filter does request) would have
matched — contradicting the claim (and the repository's own README, which
documents these filters as case-insensitive). -/
theorem C8_user_filter_case_sensitive :
    (userList aliceDb ⟨none, none, none, some "alice"⟩).body
      = some (sendSuccessBody ⟨1, 10, []⟩)
  ∧ (userList aliceDb ⟨none, none, none, some "Alic"⟩).body
      = some (sendSuccessBody ⟨1, 10, [aliceRow]⟩)
  ∧ (userList aliceDb ⟨none, none, some "ALICE@EXAMPLE.COM", none⟩).body
      = some (sendSuccessBody ⟨1, 10, []⟩)
  ∧ prismaContains .insensitive "Alice" "alice" = true
  ∧ prismaContains .default "Alice" "alice" = false := by
  with_unfolding_all decide

/-- Invoice row generator for the C1 store. -/
def mkInvoiceRow (n : ℕ) : Invoice := ⟨n, 1, 10, "draft", 0⟩

/-- A store holding 101 invoices. -/
def invoiceDb101 : Db := ⟨[], [], (List.range 101).map mkInvoiceRow⟩

/-- The invoice list request `GET /api/invoices?limit=999`. -/
def limit999Query : InvoiceListQuery := ⟨none, some "999", none, none, none, none⟩

/-- Number of items in a list response's page. -/
def pageSize (r : HttpResponse (PagedResult Invoice)) : ℕ :=
  match r.body with
  | some b =>
      match b.data with
      | some pr => pr.data.length
      | none => 0
  | none => 0

/-- C1 counterexample: the claim says every list endpoint clamps the limit at
100 (`limit=999` → at most 100 items).  The invoice list does not go through
`getPagination`; it computes `limit = Number(req.query.limit) || 10` with no
clamp, so `limit=999` against a store of 101 invoices returns all 101 of
them. -/
theorem C1_counterexample :
    pageSize (invoiceList invoiceDb101 limit999Query) = 101
  ∧ ¬ (101 ≤ 100) := by
  with_unfolding_all decide

theorem getPagination_limit_le_100 (page limit : Option String) :
    (getPagination page limit).limit ≤ 100 := by
  unfold getPagination
  cases h : jsNumberOf limit with
  | none => norm_num [DEFAULT_LIMIT]
  | some q =>
      by_cases hlt : q < 1
      · simp only [if_pos hlt]
        norm_num [DEFAULT_LIMIT]
      · simp only [if_neg hlt]
        exact min_le_right q MAX_LIMIT

theorem rat_num_toNat_le_100 {q : ℚ} (hden : q.den = 1) (h : q ≤ 100) :
    q.num.toNat ≤ 100 := by
  have hq : (q.num : ℚ) = q := Rat.coe_int_num_of_den_eq_one hden
  have hnum : q.num ≤ 100 := by
    have hc : (q.num : ℚ) ≤ ((100 : ℤ) : ℚ) := by
      rw [hq]
      exact_mod_cast h
    exact_mod_cast hc
  exact Int.toNat_le.mpr hnum

/-- C1 (amended): the normalization the claim describes is exactly what
`getPagination` implements — non-numeric or `< 1` page defaults to 1,
non-numeric or `< 1` limit defaults to 10, the limit is clamped to 100 — and
it governs the user (account) list, whose returned page therefore never
exceeds 100 items.  The invoice and tax-profile lists, however, bypass
`getPagination` and compute `Number(req.query.limit) || 10` with no clamp:
any truthy numeric limit (999 included) is used as the effective page size
unchanged. -/
theorem C1_amended_pagination (page limit : Option String) :
    (jsNumberOf page = none → (getPagination page limit).page = 1)
  ∧ (∀ q, jsNumberOf page = some q → q < 1 → (getPagination page limit).page = 1)
  ∧ (jsNumberOf limit = none → (getPagination page limit).limit = 10)
  ∧ (∀ q, jsNumberOf limit = some q → q < 1 → (getPagination page limit).limit = 10)
  ∧ (getPagination page limit).limit ≤ 100
  ∧ (∀ (db : Db) (q : UserListQuery) (b : Body UserListResult) (r : UserListResult),
      q.page = page → q.limit = limit →
      (userList db q).body = some b → b.data = some r → r.data.length ≤ 100)
  ∧ (∀ (db : Db) (q : InvoiceListQuery) (n : ℚ) (b : Body (PagedResult Invoice))
        (pr : PagedResult Invoice),
      q.limit = limit → jsNumberOf limit = some n → ¬ n = 0 →
      (invoiceList db q).body = some b → b.data = some pr → pr.limit = n)
  ∧ (∀ (db : Db) (q : TaxProfileListQuery) (n : ℚ) (b : Body (PagedResult TaxProfile))
        (pr : PagedResult TaxProfile),
      q.limit = limit → jsNumberOf limit = some n → ¬ n = 0 →
      (taxProfileList db q).body = some b → b.data = some pr → pr.limit = n) := by
  refine ⟨?_, ?_, ?_, ?_, ?_, ?_, ?_, ?_⟩
  · intro h
    simp [getPagination, h, DEFAULT_PAGE]
  · intro q hq hlt
    simp [getPagination, hq, if_pos hlt, DEFAULT_PAGE]
  · intro h
    simp [getPagination, h, DEFAULT_LIMIT]
  · intro q hq hlt
    simp [getPagination, hq, if_pos hlt, DEFAULT_LIMIT]
  · exact getPagination_limit_le_100 page limit
  · intro db q b r hpage hlimit hbody hdata
    cases hl : listUsers db (getPagination q.page q.limit).page
        (getPagination q.page q.limit).limit q with
    | error e =>
        simp only [userList, hl, respError] at hbody
        obtain rfl : sendErrorBody "List failed" = b := Option.some.inj hbody
        simp [sendErrorBody] at hdata
    | ok us =>
        simp only [userList, hl, respSuccess] at hbody
        obtain rfl : sendSuccessBody
            (⟨(getPagination q.page q.limit).page,
              (getPagination q.page q.limit).limit, us⟩ : UserListResult) = b :=
          Option.some.inj hbody
        obtain rfl : (⟨(getPagination q.page q.limit).page,
            (getPagination q.page q.limit).limit, us⟩ : UserListResult) = r := by
          simpa [sendSuccessBody] using hdata
        show us.length ≤ 100
        -- extract the slice and the accepted-argument facts from `listUsers`
        simp only [listUsers] at hl
        split at hl
        · next hcond =>
            rw [Bool.and_eq_true] at hcond
            have hparts : ((getPagination q.page q.limit).limit).den = 1
                ∧ 0 ≤ ((getPagination q.page q.limit).limit).num := by
              simpa [acceptedArg] using hcond.2
            have hslice := Except.ok.inj hl
            calc us.length ≤ ((getPagination q.page q.limit).limit).num.toNat := by
                  rw [← hslice]
                  exact length_listSlice_le _ _ _
              _ ≤ 100 := rat_num_toNat_le_100 hparts.1
                  (getPagination_limit_le_100 q.page q.limit)
        · simp at hl
  · intro db q n b pr hlimit hn hnz hbody hdata
    cases hf : buildInvoiceFilter q with
    | error e =>
        simp [invoiceList, hf, respInternal, sendErrorBody] at hbody
        subst hbody
        simp [sendErrorBody] at hdata
    | ok f =>
        have hlim : jsOrNum (jsNumberOf q.limit) 10 = n := by
          rw [hlimit, hn]
          simp [jsOrNum, hnz]
        simp only [invoiceList, hf] at hbody
        split at hbody
        · next hcond =>
            simp [respSuccess, sendSuccessBody] at hbody
            subst hbody
            simp [sendSuccessBody] at hdata
            subst hdata
            simpa using hlim
        · simp [respError, sendErrorBody] at hbody
          subst hbody
          simp [sendErrorBody] at hdata
  · intro db q n b pr hlimit hn hnz hbody hdata
    cases hf : buildTaxProfileFilter q with
    | error e =>
        simp [taxProfileList, hf, respInternal, sendErrorBody] at hbody
        subst hbody
        simp [sendErrorBody] at hdata
    | ok f =>
        have hlim : jsOrNum (jsNumberOf q.limit) 10 = n := by
          rw [hlimit, hn]
          simp [jsOrNum, hnz]
        simp only [taxProfileList, hf] at hbody
        split at hbody
        · next hcond =>
            simp [respSuccess, sendSuccessBody] at hbody
            subst hbody
            simp [sendSuccessBody] at hdata
            subst hdata
            simpa using hlim
        · simp [respError, sendErrorBody] at hbody
          subst hbody
          simp [sendErrorBody] at hdata

set_option maxRecDepth 100000 in
/-- Witness for C1 (amended) at concrete requests: a non-numeric page, a page
of 0, a non-numeric limit, a fractional limit below 1, limit 999 clamped for
the user list, and limit 999 kept verbatim by the invoice and tax-profile
lists. -/
theorem C1_amended_pagination_witness :
    (getPagination (some "abc") (some "xyz")).page = 1
  ∧ (getPagination (some "0") (some "xyz")).page = 1
  ∧ (getPagination (some "abc") (some "xyz")).limit = 10
  ∧ (getPagination (some "0") (some "0.5")).limit = 10
  ∧ (getPagination none (some "999")).limit ≤ 100
  ∧ (⟨1, 100, []⟩ : UserListResult).data.length ≤ 100
  ∧ (⟨1, 999, 0, []⟩ : PagedResult Invoice).limit = 999
  ∧ (⟨1, 999, 0, []⟩ : PagedResult TaxProfile).limit = 999 := by
  refine ⟨?_, ?_, ?_, ?_, ?_, ?_, ?_, ?_⟩
  · exact (C1_amended_pagination (some "abc") (some "xyz")).1
      (by with_unfolding_all decide)
  · exact (C1_amended_pagination (some "0") (some "xyz")).2.1 0
      (by with_unfolding_all decide) (by with_unfolding_all decide)
  · exact (C1_amended_pagination (some "abc") (some "xyz")).2.2.1
      (by with_unfolding_all decide)
  · exact (C1_amended_pagination (some "0") (some "0.5")).2.2.2.1 (1 / 2)
      (by with_unfolding_all decide) (by with_unfolding_all decide)
  · exact (C1_amended_pagination none (some "999")).2.2.2.2.1
  · exact (C1_amended_pagination none (some "999")).2.2.2.2.2.1
      ⟨[], [], []⟩ ⟨none, some "999", none, none⟩
      (sendSuccessBody ⟨1, 100, []⟩) ⟨1, 100, []⟩ rfl rfl
      (by with_unfolding_all decide) rfl
  · exact (C1_amended_pagination none (some "999")).2.2.2.2.2.2.1
      ⟨[], [], []⟩ limit999Query 999
      (sendSuccessBody ⟨1, 999, 0, []⟩) ⟨1, 999, 0, []⟩ rfl
      (by with_unfolding_all decide) (by with_unfolding_all decide)
      (by with_unfolding_all decide) rfl
  · exact (C1_amended_pagination none (some "999")).2.2.2.2.2.2.2
      ⟨[], [], []⟩ ⟨none, some "999", none, none, none⟩ 999
      (sendSuccessBody ⟨1, 999, 0, []⟩) ⟨1, 999, 0, []⟩ rfl
      (by with_unfolding_all decide) (by with_unfolding_all decide)
      (by with_unfolding_all decide) rfl

/-- C4: the claim says that on get/update/delete alike, a malformed id is a
400 at the boundary and a well-formed id matching no record is a 404, never
conflated.  The boundary half holds (`validateNumericId` runs before any
store access, and all `get`s answer 404), but the update controllers have no
`P2025` branch: updating a nonexistent id answers 400 with the raw driver
message — the same 400 status as the boundary rejection, conflating the two
cases and contradicting the claim (and the repository's own OpenAPI document,
which declares 404 for PATCH on all three entities).  Evaluated at the
failing input: id 1 on an empty store. -/
theorem C4_update_nonexistent_conflated :
    (userUpdate (fun s => s) ⟨[], [], []⟩ "1" (some ⟨none, none, some "X"⟩)).1
      = respError 400 (prismaMessage .P2025)
  ∧ (taxProfileUpdate ⟨[], [], []⟩ "1" (some ⟨none, none, none, none⟩)).1
      = respError 400 (prismaMessage .P2025)
  ∧ (userUpdate (fun s => s) ⟨[], [], []⟩ "abc" (some ⟨none, none, some "X"⟩)).1
      = respError 400 "Invalid User ID format. Must be a positive integer."
  ∧ (userGet ⟨[], [], []⟩ "1") = respError 404 "Not found"
  ∧ (userGet ⟨[], [], []⟩ "abc")
      = respError 400 "Invalid User ID format. Must be a positive integer."
  ∧ (invoiceGet ⟨[], [], []⟩ "1") = respError 404 "Not found"
  ∧ (taxProfileGet ⟨[], [], []⟩ "1") = respError 404 "Not found" := by
  with_unfolding_all decide

/-- C9: every registration whose email is already taken — whether the
duplicate is seen by the `findUnique` pre-check (snapshot `checkDb`) or only
by the unique-index violation at insert time (snapshot `db`, the `P2002`
catch) — answers 409 "Email already used" and leaves the user table exactly
as it was: no account is created. -/
theorem C9_register_conflict (hash : String → String) (sign : ℕ → String)
    (checkDb db : Db) (email password name : String) (now : ℕ)
    (h : (∃ u ∈ checkDb.users, u.email = email)
       ∨ (∃ u ∈ db.users, u.email = email)) :
    (register hash sign checkDb db email password name now).1
      = respError 409 "Email already used"
  ∧ (register hash sign checkDb db email password name now).2 = db := by
  cases hfind : findUserByEmail checkDb email with
  | some u =>
      constructor
      · simp [register, hfind]
      · simp [register, hfind]
  | none =>
      have hdb : ∃ u ∈ db.users, u.email = email := by
        rcases h with ⟨u, hu, he⟩ | hdb
        · exfalso
          have hnone : ∀ x ∈ checkDb.users, ¬ x.email = email := by
            simpa [findUserByEmail, List.find?_eq_none] using hfind
          exact hnone u hu he
        · exact hdb
      have hany : (db.users.any fun u => u.email = email) = true := by
        rcases hdb with ⟨u, hu, he⟩
        exact List.any_eq_true.mpr ⟨u, hu, by simp [he]⟩
      constructor
      · simp [register, hfind, prismaCreateUser, hany]
      · simp [register, hfind, prismaCreateUser, hany]

/-- Store used by the C9 and C10 witnesses. -/
def bobRow : User := ⟨3, "bob@test.com", "stored-hash", "Bob", 0⟩

def bobDb : Db := ⟨[bobRow], [], []⟩

/-- Witness for C9: both detection paths at concrete stores — the duplicate
visible to the pre-check, and the duplicate appearing only at insert time. -/
theorem C9_register_conflict_witness :
    (register (fun s => s) (fun _ => "tok") bobDb bobDb
        "bob@test.com" "pw" "Bob" 1).1 = respError 409 "Email already used"
  ∧ (register (fun s => s) (fun _ => "tok") bobDb bobDb
        "bob@test.com" "pw" "Bob" 1).2 = bobDb
  ∧ (register (fun s => s) (fun _ => "tok") ⟨[], [], []⟩ bobDb
        "bob@test.com" "pw" "Bob" 1).1 = respError 409 "Email already used"
  ∧ (register (fun s => s) (fun _ => "tok") ⟨[], [], []⟩ bobDb
        "bob@test.com" "pw" "Bob" 1).2 = bobDb := by
  have h1 := C9_register_conflict (fun s => s) (fun _ => "tok") bobDb bobDb
    "bob@test.com" "pw" "Bob" 1 (Or.inl ⟨bobRow, by simp [bobDb], rfl⟩)
  have h2 := C9_register_conflict (fun s => s) (fun _ => "tok") ⟨[], [], []⟩ bobDb
    "bob@test.com" "pw" "Bob" 1 (Or.inr ⟨bobRow, by simp [bobDb], rfl⟩)
  exact ⟨h1.1, h1.2, h2.1, h2.2⟩

/-- C10: a failed login — unknown email or known email with a password that
does not verify — always answers exactly 401 "Invalid credentials", so the
responses of any two failed logins are equal and an observer cannot tell an
unknown email from a wrong password. -/
theorem C10_login_uniform_failure (cmp : String → String → Bool)
    (sign : ℕ → String) (db1 : Db) (e1 p1 : String) (db2 : Db) (e2 p2 : String)
    (h1 : findUserByEmail db1 e1 = none
        ∨ ∃ u, findUserByEmail db1 e1 = some u ∧ cmp p1 u.password = false)
    (h2 : findUserByEmail db2 e2 = none
        ∨ ∃ u, findUserByEmail db2 e2 = some u ∧ cmp p2 u.password = false) :
    login cmp sign db1 e1 p1 = respError 401 "Invalid credentials"
  ∧ login cmp sign db1 e1 p1 = login cmp sign db2 e2 p2 := by
  have key : ∀ (db : Db) (e p : String),
      (findUserByEmail db e = none
        ∨ ∃ u, findUserByEmail db e = some u ∧ cmp p u.password = false) →
      login cmp sign db e p = respError 401 "Invalid credentials" := by
    intro db e p h
    rcases h with h | ⟨u, hu, hcmp⟩
    · simp [login, h]
    · simp [login, hu, hcmp]
  exact ⟨key db1 e1 p1 h1, (key db1 e1 p1 h1).trans (key db2 e2 p2 h2).symm⟩

/-- Witness for C10: an unknown email and a wrong password against the same
store produce the same concrete 401 response. -/
theorem C10_login_uniform_failure_witness :
    login (fun p h => p = h) (fun _ => "tok") bobDb "carol@test.com" "stored-hash"
      = respError 401 "Invalid credentials"
  ∧ login (fun p h => p = h) (fun _ => "tok") bobDb "carol@test.com" "stored-hash"
      = login (fun p h => p = h) (fun _ => "tok") bobDb "bob@test.com" "wrong" := by
  exact C10_login_uniform_failure (fun p h => p = h) (fun _ => "tok")
    bobDb "carol@test.com" "stored-hash" bobDb "bob@test.com" "wrong"
    (Or.inl (by with_unfolding_all decide))
    (Or.inr ⟨bobRow, by with_unfolding_all decide, by with_unfolding_all decide⟩)

theorem hashIfPresent_email (hash : String → String) (p : UserPatch) :
    (hashIfPresent hash p).email = p.email := by
  unfold hashIfPresent
  cases p.password with
  | none => rfl
  | some pw =>
      by_cases hpw : pw ≠ "" <;> simp [hpw]

theorem hashIfPresent_name (hash : String → String) (p : UserPatch) :
    (hashIfPresent hash p).name = p.name := by
  unfold hashIfPresent
  cases p.password with
  | none => rfl
  | some pw =>
      by_cases hpw : pw ≠ "" <;> simp [hpw]

/-- C7: a validated partial update writes exactly the supplied fields on
every entity: each field given in the body ends up stored (the password
hashed first, users only), each omitted field keeps its previous value (never
nulled) — for users, tax profiles, and invoices (the shared `cleanUndefined`
shape).  Schema validity enters only through the password rule (`min(12)`),
which is what makes the controller's truthiness check
`if (cleaned.password)` fire for every supplied password.  A patch whose
supplied foreign key dangles is refused by the store (`P2003` → 400) with
nothing written, so the frame conclusions carry a no-dangling-key
hypothesis. -/
theorem C7_partial_update (hash : String → String) (db : Db) (idRaw : String)
    (n : ℤ) (p : UserPatch) (u : User)
    (hid : validateNumericId idRaw "User ID" = .ok n)
    (hfind : findUserById db n = some u)
    (hvalid : userPatchValid p = true)
    (hnoc : (p.email.any fun e =>
        db.users.any fun v => v.email = e && (v.id : ℤ) ≠ n) = false) :
    (∃ u', (userUpdate hash db idRaw (some p)).1 = respSuccess 200 u'
      ∧ (p.email = none → u'.email = u.email)
      ∧ (∀ e, p.email = some e → u'.email = e)
      ∧ (p.name = none → u'.name = u.name)
      ∧ (∀ s, p.name = some s → u'.name = s)
      ∧ (p.password = none → u'.password = u.password)
      ∧ (∀ pw, p.password = some pw → u'.password = hash pw)
      ∧ u'.id = u.id ∧ u'.createdAt = u.createdAt)
  ∧ (∀ (m : ℤ) (idR : String) (tq : TaxProfilePatch) (t : TaxProfile),
      validateNumericId idR "Tax Profile ID" = .ok m →
      findTaxProfileById db m = some t →
      (∀ v, tq.userId = some v → (db.users.any fun w => w.id = v) = true) →
      ∃ t', (taxProfileUpdate db idR (some tq)).1 = respSuccess 200 t'
        ∧ (tq.userId = none → t'.userId = t.userId)
        ∧ (∀ v, tq.userId = some v → t'.userId = v)
        ∧ (tq.name = none → t'.name = t.name)
        ∧ (∀ v, tq.name = some v → t'.name = v)
        ∧ (tq.tax_id_number = none → t'.tax_id_number = t.tax_id_number)
        ∧ (∀ v, tq.tax_id_number = some v → t'.tax_id_number = v)
        ∧ (tq.address = none → t'.address = t.address)
        ∧ (∀ v, tq.address = some v → t'.address = v)
        ∧ t'.id = t.id)
  ∧ (∀ (m : ℤ) (idR : String) (tq : TaxProfilePatch),
      validateNumericId idR "Tax Profile ID" = .ok m →
      (∃ t, findTaxProfileById db m = some t) →
      (∃ v, tq.userId = some v ∧ (db.users.any fun w => w.id = v) = false) →
      (taxProfileUpdate db idR (some tq)).1 = respError 400 (prismaMessage .P2003)
      ∧ (taxProfileUpdate db idR (some tq)).2 = db)
  ∧ (∀ (k : ℤ) (idR : String) (iq : InvoicePatch) (inv : Invoice),
      validateNumericId idR "Invoice ID" = .ok k →
      findInvoiceById db k = some inv →
      (∀ v, iq.taxProfileId = some v → (db.taxProfiles.any fun t => t.id = v) = true) →
      ∃ inv', (invoiceUpdate db idR (some iq)).1 = respSuccess 200 inv'
        ∧ (iq.taxProfileId = none → inv'.taxProfileId = inv.taxProfileId)
        ∧ (∀ v, iq.taxProfileId = some v → inv'.taxProfileId = v)
        ∧ (iq.amount = none → inv'.amount = inv.amount)
        ∧ (∀ v, iq.amount = some v → inv'.amount = v)
        ∧ (iq.status = none → inv'.status = inv.status)
        ∧ (∀ v, iq.status = some v → inv'.status = v)
        ∧ (iq.issuedAt = none → inv'.issuedAt = inv.issuedAt)
        ∧ (∀ v, iq.issuedAt = some v → inv'.issuedAt = v)
        ∧ inv'.id = inv.id)
  ∧ (∀ (k : ℤ) (idR : String) (iq : InvoicePatch),
      validateNumericId idR "Invoice ID" = .ok k →
      (∃ inv, findInvoiceById db k = some inv) →
      (∃ v, iq.taxProfileId = some v ∧ (db.taxProfiles.any fun t => t.id = v) = false) →
      (invoiceUpdate db idR (some iq)).1 = respError 400 (prismaMessage .P2003)
      ∧ (invoiceUpdate db idR (some iq)).2 = db) := by
  refine ⟨?_, ?_, ?_, ?_, ?_⟩
  · refine ⟨applyUserPatch u (hashIfPresent hash p), ?_, ?_, ?_, ?_, ?_, ?_, ?_, rfl, rfl⟩
    · have hmail := hashIfPresent_email hash p
      cases he : p.email with
      | none =>
          simp [userUpdate, hid, prismaUpdateUser, hfind, hmail, he]
      | some e =>
          have hfalse : (db.users.any fun v =>
              v.email = e && (v.id : ℤ) ≠ n) = false := by
            simpa [he] using hnoc
          have hnot : ¬ ∃ x ∈ db.users, x.email = e ∧ ¬ (x.id : ℤ) = n := by
            simpa [List.any_eq_false] using hfalse
          simp [userUpdate, hid, prismaUpdateUser, hfind, hmail, he, hnot]
    · intro h
      simp [applyUserPatch, hashIfPresent_email, h]
    · intro e h
      simp [applyUserPatch, hashIfPresent_email, h]
    · intro h
      simp [applyUserPatch, hashIfPresent_name, h]
    · intro s h
      simp [applyUserPatch, hashIfPresent_name, h]
    · intro h
      simp [applyUserPatch, hashIfPresent, h]
    · intro pw h
      have hne : pw ≠ "" := by
        intro hempty
        subst hempty
        simp [userPatchValid, h] at hvalid
      simp [applyUserPatch, hashIfPresent, h, hne]
  · intro m idR tq t hidR hfindT hfk
    refine ⟨applyTaxProfilePatch t tq, ?_, ?_, ?_, ?_, ?_, ?_, ?_, ?_, ?_, rfl⟩
    · cases huid : tq.userId with
      | none =>
          simp [taxProfileUpdate, hidR, prismaUpdateTaxProfile, hfindT, huid]
      | some v =>
          have htrue := hfk v huid
          simp [taxProfileUpdate, hidR, prismaUpdateTaxProfile, hfindT, huid, htrue]
    · intro h
      simp [applyTaxProfilePatch, h]
    · intro v h
      simp [applyTaxProfilePatch, h]
    · intro h
      simp [applyTaxProfilePatch, h]
    · intro v h
      simp [applyTaxProfilePatch, h]
    · intro h
      simp [applyTaxProfilePatch, h]
    · intro v h
      simp [applyTaxProfilePatch, h]
    · intro h
      simp [applyTaxProfilePatch, h]
    · intro v h
      simp [applyTaxProfilePatch, h]
  · rintro m idR tq hidR ⟨t, hfindT⟩ ⟨v, hv, hfkF⟩
    constructor
    · simp [taxProfileUpdate, hidR, prismaUpdateTaxProfile, hfindT, hv, hfkF]
    · simp [taxProfileUpdate, hidR, prismaUpdateTaxProfile, hfindT, hv, hfkF]
  · intro k idR iq inv hidR hfindI hfk
    refine ⟨applyInvoicePatch inv iq, ?_, ?_, ?_, ?_, ?_, ?_, ?_, ?_, ?_, rfl⟩
    · cases htpid : iq.taxProfileId with
      | none =>
          simp [invoiceUpdate, hidR, prismaUpdateInvoice, hfindI, htpid]
      | some v =>
          have htrue := hfk v htpid
          simp [invoiceUpdate, hidR, prismaUpdateInvoice, hfindI, htpid, htrue]
    · intro h
      simp [applyInvoicePatch, h]
    · intro v h
      simp [applyInvoicePatch, h]
    · intro h
      simp [applyInvoicePatch, h]
    · intro v h
      simp [applyInvoicePatch, h]
    · intro h
      simp [applyInvoicePatch, h]
    · intro v h
      simp [applyInvoicePatch, h]
    · intro h
      simp [applyInvoicePatch, h]
    · intro v h
      simp [applyInvoicePatch, h]
  · rintro k idR iq hidR ⟨inv, hfindI⟩ ⟨v, hv, hfkF⟩
    constructor
    · simp [invoiceUpdate, hidR, prismaUpdateInvoice, hfindI, hv, hfkF]
    · simp [invoiceUpdate, hidR, prismaUpdateInvoice, hfindI, hv, hfkF]

/-- Hash function, store, and bodies used by the C7 witness. -/
def wHash : String → String := fun s => "#" ++ s

def wOldUser : User := ⟨1, "a@b.c", "old-hash", "Old", 0⟩

def wOldProfile : TaxProfile := ⟨2, 1, "N", "ABCDE", "0123456789"⟩

def wOldInvoice : Invoice := ⟨5, 2, 10, "draft", 7⟩

def wDb7 : Db := ⟨[wOldUser], [wOldProfile], [wOldInvoice]⟩

def wPatch : UserPatch := ⟨none, some "verylongpassword", some "New"⟩

def wTpPatch : TaxProfilePatch := ⟨some 1, some "N2", none, none⟩

def wInvPatch : InvoicePatch := ⟨none, some 25, some "sent", none⟩

def wBadTpPatch : TaxProfilePatch := ⟨some 99, none, none, none⟩

/-- Witness for C7: a concrete user update (password and name supplied, email
omitted), a concrete tax profile update (userId and name supplied, both
others omitted), a concrete invoice update (amount and status supplied), and
a tax profile patch with a dangling userId refused 400 with the store
unchanged. -/
theorem C7_partial_update_witness :
    (userUpdate wHash wDb7 "1" (some wPatch)).1
      = respSuccess 200 ⟨1, "a@b.c", wHash "verylongpassword", "New", 0⟩
  ∧ (taxProfileUpdate wDb7 "2" (some wTpPatch)).1
      = respSuccess 200 ⟨2, 1, "N2", "ABCDE", "0123456789"⟩
  ∧ (invoiceUpdate wDb7 "5" (some wInvPatch)).1
      = respSuccess 200 ⟨5, 2, 25, "sent", 7⟩
  ∧ (taxProfileUpdate wDb7 "2" (some wBadTpPatch)).1
      = respError 400 (prismaMessage .P2003)
  ∧ (taxProfileUpdate wDb7 "2" (some wBadTpPatch)).2 = wDb7 := by
  obtain ⟨⟨u', hresp, hmailN, _, _, hnameS, _, hpwS, hidEq, hcaEq⟩,
      htpOk, htpRej, hinvOk, _⟩ :=
    C7_partial_update wHash wDb7 "1" 1 wPatch wOldUser
      (by with_unfolding_all rfl) (by with_unfolding_all decide)
      (by decide) (by decide)
  obtain ⟨t', htresp, _, htuidS, _, htnameS, htinN, _, haddrN, _, htidEq⟩ :=
    htpOk 2 "2" wTpPatch wOldProfile
      (by with_unfolding_all rfl) (by with_unfolding_all decide)
      (by
        intro v hv
        simp only [wTpPatch] at hv
        obtain rfl := Option.some.inj hv
        with_unfolding_all decide)
  obtain ⟨inv', hiresp, htpidN, _, _, hamtS, _, hstS, hissN, _, hiidEq⟩ :=
    hinvOk 5 "5" wInvPatch wOldInvoice
      (by with_unfolding_all rfl) (by with_unfolding_all decide)
      (by
        intro v hv
        simp [wInvPatch] at hv)
  have hrej := htpRej 2 "2" wBadTpPatch
    (by with_unfolding_all rfl)
    ⟨wOldProfile, by with_unfolding_all decide⟩
    ⟨99, rfl, by with_unfolding_all decide⟩
  refine ⟨?_, ?_, ?_, hrej.1, hrej.2⟩
  · obtain ⟨i, e, pw, nm, ca⟩ := u'
    obtain rfl : e = "a@b.c" := hmailN rfl
    obtain rfl : nm = "New" := hnameS "New" rfl
    obtain rfl : pw = wHash "verylongpassword" := hpwS "verylongpassword" rfl
    obtain rfl : i = 1 := hidEq
    obtain rfl : ca = 0 := hcaEq
    exact hresp
  · obtain ⟨i, uid, nm, tin, addr⟩ := t'
    obtain rfl : uid = 1 := htuidS 1 rfl
    obtain rfl : nm = "N2" := htnameS "N2" rfl
    obtain rfl : tin = "ABCDE" := htinN rfl
    obtain rfl : addr = "0123456789" := haddrN rfl
    obtain rfl : i = 2 := htidEq
    exact htresp
  · obtain ⟨i, tpid, amt, st, iss⟩ := inv'
    obtain rfl : tpid = 2 := htpidN rfl
    obtain rfl : amt = 25 := hamtS 25 rfl
    obtain rfl : st = "sent" := hstS "sent" rfl
    obtain rfl : iss = 7 := hissN rfl
    obtain rfl : i = 5 := hiidEq
    exact hiresp

theorem statusMatch_iff (f : InvoiceFilter) (inv : Invoice) :
    statusMatch f inv = true ↔ ∀ s, f.status = some s → inv.status = s := by
  unfold statusMatch
  cases f.status <;> simp

theorem emailMatch_iff (db : Db) (f : InvoiceFilter) (inv : Invoice) :
    emailMatch db f inv = true ↔
      ∀ e, f.email = some e →
        ∃ tp, findTaxProfileById db (inv.taxProfileId : ℤ) = some tp
          ∧ ∃ u, findUserById db (tp.userId : ℤ) = some u
              ∧ prismaContains .insensitive u.email e = true := by
  unfold emailMatch
  cases f.email with
  | none => simp
  | some e =>
      cases htp : findTaxProfileById db (inv.taxProfileId : ℤ) with
      | none => simp [htp]
      | some tp =>
          cases hu : findUserById db (tp.userId : ℤ) with
          | none => simp [htp, hu]
          | some u => simp [htp, hu]

theorem gteMatch_iff (f : InvoiceFilter) (inv : Invoice) :
    gteMatch f inv = true ↔ ∀ mn, f.amountGte = some mn → mn ≤ inv.amount := by
  unfold gteMatch
  cases f.amountGte <;> simp

theorem lteMatch_iff (f : InvoiceFilter) (inv : Invoice) :
    lteMatch f inv = true ↔ ∀ mx, f.amountLte = some mx → inv.amount ≤ mx := by
  unfold lteMatch
  cases f.amountLte <;> simp

theorem buildInvoiceFilter_fields {q : InvoiceListQuery} {f : InvoiceFilter}
    (hb : buildInvoiceFilter q = .ok f) :
    f.status = (if isTruthy q.status then some (q.status.getD "") else none)
  ∧ f.email = (if isTruthy q.email then some (q.email.getD "") else none)
  ∧ decimalOf q.minAmount = .ok f.amountGte
  ∧ decimalOf q.maxAmount = .ok f.amountLte := by
  unfold buildInvoiceFilter at hb
  cases hmn : decimalOf q.minAmount with
  | error e => simp [hmn] at hb
  | ok mn =>
      cases hmx : decimalOf q.maxAmount with
      | error e => simp [hmn, hmx] at hb
      | ok mx =>
          simp only [hmn, hmx] at hb
          have hf := (Except.ok.inj hb).symm
          refine ⟨?_, ?_, ?_, ?_⟩ <;> rw [hf]

theorem decimalOf_none {v : Option String} (hv : isTruthy v = false) :
    decimalOf v = .ok none := by
  simp [decimalOf, hv]

theorem decimalOf_some {v : Option String} {d : ℚ} (hv : isTruthy v = true)
    (hd : jsNumber (v.getD "") = some d) : decimalOf v = .ok (some d) := by
  simp [decimalOf, hv, hd]

theorem buildInvoiceFilter_congr (q q2 : InvoiceListQuery)
    (hs : q2.status = q.status) (he : q2.email = q.email)
    (hmn : q2.minAmount = q.minAmount) (hmx : q2.maxAmount = q.maxAmount) :
    buildInvoiceFilter q2 = buildInvoiceFilter q := by
  unfold buildInvoiceFilter
  rw [hs, he, hmn, hmx]

theorem page_nonempty_iff (p l len : ℕ) (hp : 1 ≤ p) (hl : 1 ≤ l) :
    (p - 1) * l < len ↔ p ≤ (len + l - 1) / l := by
  rw [Nat.le_div_iff_mul_le (by omega : 0 < l)]
  have hpl : p * l = (p - 1) * l + l := by
    conv_lhs => rw [← Nat.sub_add_cancel hp]
    ring
  rw [hpl]
  generalize (p - 1) * l = m
  omega

theorem listSlice_page_nonempty_iff (p l : ℕ) (hp : 1 ≤ p) (hl : 1 ≤ l)
    (L : List α) :
    listSlice ((p - 1) * l) l L ≠ [] ↔ p ≤ (L.length + l - 1) / l := by
  rw [← page_nonempty_iff p l L.length hp hl]
  unfold listSlice
  rw [Ne, List.take_eq_nil_iff, List.drop_eq_nil_iff]
  constructor
  · intro h
    by_contra hc
    push_neg at hc
    exact h (Or.inr hc)
  · intro h hcon
    rcases hcon with h0 | hle
    · omega
    · exact absurd h (not_lt.mpr hle)

/-- C6: the invoice list's optional filters compose with AND semantics —
`status` exact, `email` a case-insensitive substring traversed through the
owning TaxProfile→Account chain, `minAmount`/`maxAmount` an inclusive range,
each part independently optional (an absent or falsy parameter imposes no
constraint); `count` and `findMany` share the same predicate, so the returned
`total` is the number of all matching rows, every returned row matches, and
`total` is unchanged under any `page`/`limit` variation; consequently the
pages with content are exactly pages 1 through `ceil(total/limit)`. -/
theorem C6_invoice_list_filter (db : Db) (q : InvoiceListQuery)
    (f : InvoiceFilter) (hb : buildInvoiceFilter q = .ok f) :
    (f.status = if isTruthy q.status then some (q.status.getD "") else none)
  ∧ (f.email = if isTruthy q.email then some (q.email.getD "") else none)
  ∧ (isTruthy q.minAmount = false → f.amountGte = none)
  ∧ (∀ mn, isTruthy q.minAmount = true → jsNumber (q.minAmount.getD "") = some mn →
      f.amountGte = some mn)
  ∧ (isTruthy q.maxAmount = false → f.amountLte = none)
  ∧ (∀ mx, isTruthy q.maxAmount = true → jsNumber (q.maxAmount.getD "") = some mx →
      f.amountLte = some mx)
  ∧ (∀ inv, invoiceMatches db f inv = true ↔
      ((∀ s, f.status = some s → inv.status = s)
       ∧ (∀ e, f.email = some e →
           ∃ tp, findTaxProfileById db (inv.taxProfileId : ℤ) = some tp
             ∧ ∃ u, findUserById db (tp.userId : ℤ) = some u
                 ∧ prismaContains .insensitive u.email e = true)
       ∧ (∀ mn, f.amountGte = some mn → mn ≤ inv.amount)
       ∧ (∀ mx, f.amountLte = some mx → inv.amount ≤ mx)))
  ∧ (∀ (b : Body (PagedResult Invoice)) (pr : PagedResult Invoice),
      (invoiceList db q).body = some b → b.data = some pr →
        pr.total = (db.invoices.filter (invoiceMatches db f)).length
      ∧ (∀ inv, inv ∈ pr.data → invoiceMatches db f inv = true)
      ∧ (∀ (q2 : InvoiceListQuery) (b2 : Body (PagedResult Invoice))
            (pr2 : PagedResult Invoice),
          q2.status = q.status → q2.email = q.email →
          q2.minAmount = q.minAmount → q2.maxAmount = q.maxAmount →
          (invoiceList db q2).body = some b2 → b2.data = some pr2 →
          pr2.total = pr.total))
  ∧ (∀ (p l : ℕ), 1 ≤ p → 1 ≤ l →
      (listSlice ((p - 1) * l) l
          (sortDesc Invoice.issuedAt (db.invoices.filter (invoiceMatches db f))) ≠ []
        ↔ p ≤ ((db.invoices.filter (invoiceMatches db f)).length + l - 1) / l)) := by
  obtain ⟨hst, hem, hmn0, hmx0⟩ := buildInvoiceFilter_fields hb
  refine ⟨hst, hem, ?_, ?_, ?_, ?_, ?_, ?_, ?_⟩
  · intro hfalse
    have := decimalOf_none (v := q.minAmount) hfalse
    rw [this] at hmn0
    exact (Except.ok.inj hmn0).symm
  · intro mn htrue hjs
    have := decimalOf_some (v := q.minAmount) htrue hjs
    rw [this] at hmn0
    exact (Except.ok.inj hmn0).symm
  · intro hfalse
    have := decimalOf_none (v := q.maxAmount) hfalse
    rw [this] at hmx0
    exact (Except.ok.inj hmx0).symm
  · intro mx htrue hjs
    have := decimalOf_some (v := q.maxAmount) htrue hjs
    rw [this] at hmx0
    exact (Except.ok.inj hmx0).symm
  · intro inv
    rw [invoiceMatches]
    simp only [Bool.and_eq_true]
    rw [statusMatch_iff, emailMatch_iff, gteMatch_iff, lteMatch_iff]
    tauto
  · intro b pr hbody hdata
    simp only [invoiceList, hb] at hbody
    split at hbody
    · next hcond =>
        simp only [respSuccess, HttpResponse.body] at hbody
        obtain rfl := Option.some.inj hbody
        simp only [sendSuccessBody] at hdata
        obtain rfl := Option.some.inj hdata
        refine ⟨rfl, ?_, ?_⟩
        · intro inv hmem
          have hmem' := mem_sortDesc.mp (mem_listSlice hmem)
          exact (List.mem_filter.mp hmem').2
        · intro q2 b2 pr2 hs2 he2 hmn2 hmx2 hbody2 hdata2
          have hb2 : buildInvoiceFilter q2 = .ok f :=
            (buildInvoiceFilter_congr q q2 hs2 he2 hmn2 hmx2).trans hb
          simp only [invoiceList, hb2] at hbody2
          split at hbody2
          · next hcond2 =>
              simp only [respSuccess, HttpResponse.body] at hbody2
              obtain rfl := Option.some.inj hbody2
              simp only [sendSuccessBody] at hdata2
              obtain rfl := Option.some.inj hdata2
              rfl
          · simp only [respError, HttpResponse.body] at hbody2
            obtain rfl := Option.some.inj hbody2
            simp [sendErrorBody] at hdata2
    · simp only [respError, HttpResponse.body] at hbody
      obtain rfl := Option.some.inj hbody
      simp [sendErrorBody] at hdata
  · intro p l hp hl
    have := listSlice_page_nonempty_iff p l hp hl
      (sortDesc Invoice.issuedAt (db.invoices.filter (invoiceMatches db f)))
    rwa [length_sortDesc] at this

/-- Rows, store, query and filter used by the C6 witness. -/
def wInvUser : User := ⟨1, "Ali@x.com", "h", "Ali", 0⟩

def wInvProfile : TaxProfile := ⟨1, 1, "P", "ABCDE", "somewhere 42"⟩

def wInv6 : Invoice := ⟨1, 1, 10, "sent", 3⟩

def wDb6 : Db := ⟨[wInvUser], [wInvProfile], [wInv6]⟩

def wQ6 : InvoiceListQuery := ⟨none, none, some "sent", some "ali", some "5", some "15"⟩

def wF6 : InvoiceFilter := ⟨some "sent", some "ali", some 5, some 15⟩

set_option maxRecDepth 100000 in
/-- Witness for C6 at a concrete store and the fully-filtered request
`status=sent&email=ali&minAmount=5&maxAmount=15`: the one stored invoice
matches all four composed conditions, the returned `total` is the full
matching count, the page/limit-independence and ceiling-page facts hold at
page 1 / limit 5, and the min bound decodes into the filter. -/
theorem C6_invoice_list_filter_witness :
    invoiceMatches wDb6 wF6 wInv6 = true
  ∧ (⟨1, 10, 1, [wInv6]⟩ : PagedResult Invoice).total
      = (wDb6.invoices.filter (invoiceMatches wDb6 wF6)).length
  ∧ (listSlice ((1 - 1) * 5) 5
        (sortDesc Invoice.issuedAt (wDb6.invoices.filter (invoiceMatches wDb6 wF6))) ≠ []
      ↔ 1 ≤ ((wDb6.invoices.filter (invoiceMatches wDb6 wF6)).length + 5 - 1) / 5)
  ∧ wF6.amountGte = some 5 := by
  have hmain := C6_invoice_list_filter wDb6 wQ6 wF6 (by with_unfolding_all rfl)
  refine ⟨?_, ?_, ?_, ?_⟩
  · refine (hmain.2.2.2.2.2.2.1 wInv6).mpr ⟨?_, ?_, ?_, ?_⟩
    · intro s hs
      cases hs
      rfl
    · intro e he
      cases he
      exact ⟨wInvProfile, by with_unfolding_all decide,
        wInvUser, by with_unfolding_all decide, by with_unfolding_all decide⟩
    · intro mn hmn
      cases hmn
      with_unfolding_all decide
    · intro mx hmx
      cases hmx
      with_unfolding_all decide
  · exact (hmain.2.2.2.2.2.2.2.1 (sendSuccessBody ⟨1, 10, 1, [wInv6]⟩)
      ⟨1, 10, 1, [wInv6]⟩ (by with_unfolding_all decide) rfl).1
  · exact hmain.2.2.2.2.2.2.2.2 1 5 (by decide) (by decide)
  · exact hmain.2.2.2.1 5 (by decide) (by with_unfolding_all decide)

end Backend
